import Mathlib

/-!
Shallow embedding of the Vulkan frame-presentation engine in `src/vulkan.c`
(the zelda3 Android port's Vulkan renderer backend), together with theorems
checking the natural-language specification against it.

Conventions:
* C `uint32_t` arithmetic is modelled with `Nat` (all quantities involved —
  image counts, memory-type indices, queue-family indices, sizes — stay far
  below 2^32 on the code paths modelled, and where a wrap could matter it is
  noted at the definition).
* Driver calls are modelled by explicit environment inputs (their results) and
  by emitted action traces; the state struct `VulkanState` in the C source is
  modelled field-by-field, restricted to the fields the claims mention.
-/

namespace Zelda3Vulkan

/-! ## Shader module creation (`CreateShaderModule`, vulkan.c:223-254) -/

/-- The SPIR-V magic number, `0x07230203` (vulkan.c:227). -/
def SPIRV_MAGIC : Nat := 0x07230203

/-- Outcome of `CreateShaderModule`. The first two constructors correspond to
the two local validation failures (distinct `VK_ERR` messages, returning
`VK_NULL_HANDLE` before any driver call); `driverFailure` corresponds to
`vkCreateShaderModule` returning a non-success `VkResult`; `created` is the
success case. -/
inductive ShaderModuleOutcome where
  | rejectedMagic
  | rejectedSize
  | driverFailure (result : Int)
  | created
deriving DecidableEq, Repr

/-- Model of `CreateShaderModule` (vulkan.c:223-254).

`code` is the bytecode viewed as a list of 32-bit words, `size` the byte
count as passed separately by the caller, `driverResult` the `VkResult` the
driver would return (`0` = `VK_SUCCESS`).

Returns the outcome together with the argument pair `(code, size)` passed to
`vkCreateShaderModule` when the driver is reached (`none` when the local
validation rejects the bytecode first). The C passes `pCode = code` and
`codeSize = size` unchanged (vulkan.c:240-241). -/
def CreateShaderModule (code : List Nat) (size : Nat) (driverResult : Int) :
    ShaderModuleOutcome × Option (List Nat × Nat) :=
  -- vulkan.c:227: `if (size < 4 || code[0] != 0x07230203)`
  if size < 4 ∨ code.headD 0 ≠ SPIRV_MAGIC then
    (.rejectedMagic, none)
  -- vulkan.c:233: `if (size % 4 != 0)`
  else if size % 4 ≠ 0 then
    (.rejectedSize, none)
  else if driverResult = 0 then
    (.created, some (code, size))
  else
    (.driverFailure driverResult, some (code, size))

/-! ## Swapchain image count (`CreateSwapchain`, vulkan.c:326-329) -/

/-- The swapchain image count requested from the driver, computed from the
surface capability envelope (vulkan.c:326-329):
`image_count = minImageCount + 1`, then clamped down to `maxImageCount`
when `maxImageCount > 0` and the count exceeds it. -/
def CreateSwapchain_imageCount (minImageCount maxImageCount : Nat) : Nat :=
  let image_count := minImageCount + 1
  if maxImageCount > 0 ∧ image_count > maxImageCount then maxImageCount
  else image_count

/-! ## Memory type selection (`FindMemoryType`, vulkan.c:118-130) -/

/-- The loop of `FindMemoryType` (vulkan.c:122-126): scan the memory types in
order (each given by its `propertyFlags` word), returning the first index `i`
with `(type_filter & (1 << i)) != 0` and
`(memoryTypes[i].propertyFlags & properties) == properties`. -/
def findMemoryTypeLoop (memoryTypes : List Nat) (type_filter properties i : Nat) :
    Option Nat :=
  match memoryTypes with
  | [] => none
  | flags :: rest =>
    if type_filter.testBit i ∧ flags &&& properties = properties then some i
    else findMemoryTypeLoop rest type_filter properties (i + 1)

/-- Model of `FindMemoryType` (vulkan.c:118-130): the loop above, falling back
to `0` (after only logging an error) when no memory type matches. The return
type `Nat` has no failure channel, exactly as the C returns a plain
`uint32_t`. -/
def FindMemoryType (memoryTypes : List Nat) (type_filter properties : Nat) : Nat :=
  (findMemoryTypeLoop memoryTypes type_filter properties 0).getD 0

/-- The `memoryTypeIndex` placed into the `VkMemoryAllocateInfo` by
`CreateBuffer` (vulkan.c:151) and `CreateImage` (vulkan.c:191): the result of
`FindMemoryType`, used directly with no success check. -/
def CreateBuffer_memoryTypeIndex (memoryTypes : List Nat)
    (type_filter properties : Nat) : Nat :=
  FindMemoryType memoryTypes type_filter properties

/-! ## Physical device and queue family selection (`VulkanRenderer_Init`,
vulkan.c:967-1027) -/

/-- A queue family as seen by the selection loop: whether its `queueFlags`
include `VK_QUEUE_GRAPHICS_BIT`, and whether
`vkGetPhysicalDeviceSurfaceSupportKHR` reports presentation support to the
bound surface. -/
structure QueueFamily where
  supportsGraphics : Bool
  supportsPresent : Bool
deriving DecidableEq, Repr

/-- A queue family qualifies when it supports both graphics and present
(vulkan.c:1013-1016). -/
def QueueFamily.suitable (q : QueueFamily) : Bool :=
  q.supportsGraphics && q.supportsPresent

/-- The queue-family loop of `VulkanRenderer_Init` (vulkan.c:1012-1021):
first index whose family has the graphics bit and present support. -/
def findQueueFamilyLoop (families : List QueueFamily) (i : Nat) : Option Nat :=
  match families with
  | [] => none
  | q :: rest =>
    if q.suitable then some i else findQueueFamilyLoop rest (i + 1)

/-- Model of the device/queue-family selection in `VulkanRenderer_Init`
(vulkan.c:967-1027). Each enumerated physical device is given by its list of
queue families. The C takes `vk.physical_device = devices[0]`
(vulkan.c:977) unconditionally, then searches only that device's queue
families; it returns an error (`none`) when no device is enumerated or when
the first device has no suitable family (vulkan.c:1024-1027). On success it
returns `(deviceIndex, queueFamilyIndex)`. -/
def VulkanRenderer_Init_selectDevice (devices : List (List QueueFamily)) :
    Option (Nat × Nat) :=
  match devices with
  | [] => none
  | d0 :: _ =>
    match findQueueFamilyLoop d0 0 with
    | none => none
    | some f => some (0, f)

/-- The selection behaviour the specification describes (`picks the first GPU
exposing a queue family that supports both graphics submission and
presentation`): search ALL enumerated devices for the first one with a
suitable queue family. Written from the spec's words, for comparison with
`VulkanRenderer_Init_selectDevice`. -/
def selectDeviceSpec (devices : List (List QueueFamily)) : Option (Nat × Nat) :=
  match devices with
  | [] => none
  | d0 :: rest =>
    match findQueueFamilyLoop d0 0 with
    | some f => some (0, f)
    | none =>
      match selectDeviceSpec rest with
      | none => none
      | some (g, f) => some (g + 1, f)

/-! ## Texture / staging-buffer state and `VulkanRenderer_BeginDraw`
(vulkan.c:1168-1203, CreateTextureResources vulkan.c:760-896) -/

/-- Image formats relevant to the texture and swapchain (subset of
`VkFormat`). -/
inductive VkFormat where
  | B8G8R8A8_UNORM
  | B8G8R8A8_SRGB
  | other
deriving DecidableEq, Repr

/-- Identity of a CPU-visible pixel pointer held in the renderer state:
`vk.pixel_buffer` (the `malloc`ed CPU-side frame buffer, vulkan.c:113, 1196)
or `vk.staging_buffer_mapped` (the persistently-mapped staging buffer,
vulkan.c:108, 846). They are distinct allocations in the C. -/
inductive BufPtr where
  | pixelBuffer
  | stagingMapped
deriving DecidableEq, Repr

/-- The texture-related fields of `VulkanState` (vulkan.c:90-113), plus two
ghost counters instrumenting the resize branch of `VulkanRenderer_BeginDraw`:
`createCount` counts calls to `CreateTextureResources`, `destroyCount`
counts executions of the destroy block (vulkan.c:1177-1191), i.e. how often
the texture and staging buffer were destroyed and then re-created. -/
structure TexState where
  /-- `vk.pixel_buffer`: `none` when NULL, else the allocation size. -/
  pixel_buffer : Option Nat
  /-- `vk.texture_width`. -/
  texture_width : Nat
  /-- `vk.texture_height`. -/
  texture_height : Nat
  /-- whether `vk.texture_image` is non-null. -/
  hasTexture : Bool
  /-- format of the current texture image, `none` when no texture. -/
  textureFormat : Option VkFormat
  /-- size in bytes of `vk.staging_buffer` / its mapping. -/
  stagingSize : Nat
  /-- whether `vk.staging_buffer_mapped` is non-null. -/
  stagingMapped : Bool
  /-- ghost: number of `CreateTextureResources` calls. -/
  createCount : Nat
  /-- ghost: number of destroy-and-recreate executions. -/
  destroyCount : Nat
deriving DecidableEq, Repr

/-- Texture state after `VulkanRenderer_Init` (the static `vk` struct is
zero-initialised, vulkan.c:116; `Init` touches none of these fields). -/
def initTexState : TexState :=
  { pixel_buffer := none
    texture_width := 0
    texture_height := 0
    hasTexture := false
    textureFormat := none
    stagingSize := 0
    stagingMapped := false
    createCount := 0
    destroyCount := 0 }

/-- Success path of `CreateTextureResources(width, height)`
(vulkan.c:760-896): creates the texture image with format
`VK_FORMAT_B8G8R8A8_UNORM` (vulkan.c:764), its view, sampler, descriptor
pool/set, and a persistently-mapped staging buffer of `width*height*4` bytes
(vulkan.c:838-846). -/
def CreateTextureResources (s : TexState) (width height : Nat) : TexState :=
  { s with
    hasTexture := true
    textureFormat := some .B8G8R8A8_UNORM
    stagingSize := width * height * 4
    stagingMapped := true
    createCount := s.createCount + 1 }

/-- Model of `VulkanRenderer_BeginDraw` (vulkan.c:1168-1203). Returns the new
state, the pointer written to `*pixels` (vulkan.c:1201: `vk.pixel_buffer`),
and the pitch written to `*pitch` (vulkan.c:1202: `width * 4`).

The resize branch (vulkan.c:1175-1199) runs when `vk.pixel_buffer` is NULL or
either dimension differs from the stored one; inside it, the destroy block
(vulkan.c:1177-1191) runs only when `vk.texture_image` is non-null. -/
def VulkanRenderer_BeginDraw (s : TexState) (width height : Nat) :
    TexState × BufPtr × Nat :=
  if s.pixel_buffer.isNone ∨ s.texture_width ≠ width ∨ s.texture_height ≠ height then
    let destroyed := s.hasTexture
    let s1 : TexState :=
      { s with
        hasTexture := false
        textureFormat := none
        stagingMapped := false
        destroyCount := s.destroyCount + (if destroyed then 1 else 0) }
    let s2 : TexState :=
      { s1 with
        texture_width := width
        texture_height := height
        pixel_buffer := some (width * height * 4) }
    (CreateTextureResources s2 width height, .pixelBuffer, width * 4)
  else
    (s, .pixelBuffer, width * 4)

/-! ## Frame loop (`VulkanRenderer_EndDraw`, vulkan.c:1205-1348;
`CreateSyncObjects`, vulkan.c:641-663; `VulkanRenderer_OnResize`,
vulkan.c:1350-1355) -/

/-- CPU-observable status of a frame slot's fence. `pending` means a queue
submission naming it is outstanding: the GPU (trusted to make forward
progress) will signal it, so a CPU wait on it eventually returns.
`unsignaled` with no outstanding submission blocks a `vkWaitForFences` with
`UINT64_MAX` timeout forever. -/
inductive FenceStatus where
  | signaled
  | unsignaled
  | pending
deriving DecidableEq, Repr

/-- Driver results fed into one `VulkanRenderer_EndDraw` call:
whether `vkAcquireNextImageKHR` returns `VK_ERROR_OUT_OF_DATE_KHR` or
`VK_SUBOPTIMAL_KHR` (vulkan.c:1215), and whether `vkQueueSubmit` fails
(vulkan.c:1329). -/
structure EndDrawEnv where
  acquireOutOfDate : Bool
  submitFails : Bool
deriving DecidableEq, Repr

/-- Frame-loop state: the two in-flight fences (`vk.in_flight_fences`,
`MAX_FRAMES_IN_FLIGHT = 2`, vulkan.c:32) and `vk.current_frame`
(vulkan.c:88), together with the texture state `EndDraw` reads. -/
structure FrameState where
  tex : TexState
  fence0 : FenceStatus
  fence1 : FenceStatus
  currentFrame : Nat
deriving DecidableEq, Repr

/-- `vk.in_flight_fences[i]`. -/
def FrameState.fenceAt (s : FrameState) (i : Nat) : FenceStatus :=
  if i = 0 then s.fence0 else s.fence1

/-- Functional update of `vk.in_flight_fences[i]`. -/
def FrameState.setFence (s : FrameState) (i : Nat) (f : FenceStatus) : FrameState :=
  if i = 0 then { s with fence0 := f } else { s with fence1 := f }

/-- State after a successful `VulkanRenderer_Init`: `CreateSyncObjects`
creates both fences with `VK_FENCE_CREATE_SIGNALED_BIT` (vulkan.c:651), and
`vk.current_frame` is zero-initialised. -/
def initFrameState : FrameState :=
  { tex := initTexState
    fence0 := .signaled
    fence1 := .signaled
    currentFrame := 0 }

/-- Observable operations performed by a `VulkanRenderer_EndDraw` call. -/
inductive VkOp where
  /-- `vkWaitForFences` on slot `i` (vulkan.c:1207). -/
  | waitFence (i : Nat)
  /-- `vkAcquireNextImageKHR` (vulkan.c:1211). -/
  | acquire (i : Nat)
  /-- `vkResetFences` on slot `i` (vulkan.c:1221). -/
  | resetFence (i : Nat)
  /-- `memcpy(dst, src, bytes)` (vulkan.c:1224). -/
  | memcpyOp (dst src : BufPtr) (bytes : Nat)
  /-- `vkQueueSubmit` with slot `i`'s fence (vulkan.c:1329). -/
  | submit (i : Nat)
  /-- `vkQueuePresentKHR` (vulkan.c:1345). -/
  | present
  /-- swapchain recreation (no call site exists in the source). -/
  | recreateSwapchain
deriving DecidableEq, Repr

/-- Model of `VulkanRenderer_EndDraw` (vulkan.c:1205-1348). Returns `none`
when the call deadlocks: the initial `vkWaitForFences(..., UINT64_MAX)` on
slot `current_frame`'s fence never returns because the fence is unsignaled
with no outstanding submission. Otherwise returns the post-call state and the
trace of operations performed.

Paths, in source order:
* wait on the slot's fence (a `pending` fence is signaled by the GPU);
* acquire; on out-of-date/suboptimal, log and return — the frame is skipped,
  nothing else happens (vulkan.c:1215-1219);
* reset the fence (vulkan.c:1221), memcpy the pixel buffer into the mapped
  staging buffer (vulkan.c:1224), record the command buffer;
* submit with the slot's fence; on failure, log and return — the fence stays
  unsignaled and `current_frame` is not advanced (vulkan.c:1329-1332);
* present (result ignored) and advance
  `current_frame = (current_frame + 1) % 2` (vulkan.c:1345-1347). -/
def VulkanRenderer_EndDraw (s : FrameState) (e : EndDrawEnv) :
    Option (FrameState × List VkOp) :=
  let c := s.currentFrame
  if s.fenceAt c = .unsignaled then none
  else
    let s1 := s.setFence c .signaled
    if e.acquireOutOfDate then
      some (s1, [.waitFence c, .acquire c])
    else
      let s2 := s1.setFence c .unsignaled
      let upload : List VkOp :=
        [.waitFence c, .acquire c, .resetFence c,
         .memcpyOp .stagingMapped .pixelBuffer
           (s.tex.texture_width * s.tex.texture_height * 4),
         .submit c]
      if e.submitFails then
        some (s2, upload)
      else
        some ({ s2.setFence c .pending with currentFrame := (c + 1) % 2 },
          upload ++ [.present])

/-- Model of `VulkanRenderer_OnResize` (vulkan.c:1350-1355): both arguments
are explicitly discarded and only a log line is emitted; the state is
untouched and no operation is performed. -/
def VulkanRenderer_OnResize (s : FrameState) (_width _height : Nat) :
    FrameState × List VkOp :=
  (s, [])

/-- Run a sequence of `VulkanRenderer_EndDraw` calls, threading the state and
concatenating the traces; `none` as soon as one call deadlocks. -/
def runEndDraws (s : FrameState) : List EndDrawEnv → Option (FrameState × List VkOp)
  | [] => some (s, [])
  | e :: rest =>
    match VulkanRenderer_EndDraw s e with
    | none => none
    | some (s', tr) =>
      match runEndDraws s' rest with
      | none => none
      | some (s'', tr') => some (s'', tr ++ tr')

/-- Number of `present` operations in a trace. -/
def countPresents (tr : List VkOp) : Nat :=
  tr.count .present

/-! ## Teardown (`VulkanRenderer_Destroy`, vulkan.c:1102-1166;
`CreateSyncObjects`, vulkan.c:641-663; `CreateFramebuffers`,
vulkan.c:586-608) -/

/-- Value of one handle slot as teardown sees it.
* `valid`: a handle a creation call successfully wrote;
* `null`: `VK_NULL_HANDLE` — zero-initialised memory, or the failure result
  `CreateImageView` stores in the view array (vulkan.c:217); every
  `vkDestroy*` call is defined to ignore a null handle;
* `uninitialized`: memory `malloc`ed for an array whose creation loop failed
  before writing this element (vulkan.c:642-644 with 653-659, 587 with
  601-603) — passing such a garbage handle to a `vkDestroy*` call is not
  defined behaviour. -/
inductive Handle where
  | null
  | valid
  | uninitialized
deriving DecidableEq, Repr

/-- A handle value a destroy call is defined on: anything a creation path
actually wrote (or zero-initialised), i.e. not `uninitialized`. -/
def Handle.initialized : Handle → Bool
  | .uninitialized => false
  | _ => true

/-- Kinds of handles destroyed (or unmapped) by `VulkanRenderer_Destroy`, in
the order their destroy calls appear in the source. -/
inductive HandleKind where
  | imageAvailableSemaphore
  | renderFinishedSemaphore
  | inFlightFence
  | stagingMapping
  | stagingBuffer
  | stagingMemory
  | descriptorPool
  | textureSampler
  | textureImageView
  | textureImage
  | textureMemory
  | vertexBuffer
  | vertexMemory
  | indexBuffer
  | indexMemory
  | commandPool
  | framebuffer
  | graphicsPipeline
  | pipelineLayout
  | descriptorSetLayout
  | renderPass
  | swapchainImageView
  | swapchain
  | device
  | surface
  | instanceHandle
deriving DecidableEq, Repr

/-- Operations emitted by `VulkanRenderer_Destroy`: the device-idle wait and
the individual destroy/unmap calls, each carrying the handle value passed to
the driver. `free()` calls on host arrays are not GPU-side destroys and are
omitted (`free(NULL)` is defined to be a no-op). -/
inductive DOp where
  | deviceWaitIdle
  | destroy (k : HandleKind) (h : Handle)
deriving DecidableEq, Repr

/-- The teardown-relevant fields of `VulkanState`. Individually-guarded
scalar handles appear as a `Bool` (set = non-null, exactly what their
`if (vk.x)` guards test); the three sync-object arrays and the two
per-swapchain-image arrays keep their element values, `none` meaning a NULL
array pointer. A pair holds the `MAX_FRAMES_IN_FLIGHT = 2` elements of a
sync array; a list holds the `swapchain_image_count` elements of the
framebuffer / image-view arrays (both arrays are allocated with exactly that
count, vulkan.c:587, 360, which is also the destroy loops' bound,
vulkan.c:1137, 1149). -/
structure DestroyState where
  image_available_semaphores : Option (Handle × Handle)
  render_finished_semaphores : Option (Handle × Handle)
  in_flight_fences : Option (Handle × Handle)
  staging_buffer_mapped : Bool
  staging_buffer : Bool
  staging_buffer_memory : Bool
  descriptor_pool : Bool
  texture_sampler : Bool
  texture_image_view : Bool
  texture_image : Bool
  texture_memory : Bool
  vertex_buffer : Bool
  vertex_buffer_memory : Bool
  index_buffer : Bool
  index_buffer_memory : Bool
  command_pool : Bool
  framebuffers : Option (List Handle)
  graphics_pipeline : Bool
  pipeline_layout : Bool
  descriptor_set_layout : Bool
  render_pass : Bool
  swapchain_image_views : Option (List Handle)
  swapchain : Bool
  device : Bool
  surface : Bool
  instanceHandle : Bool
deriving DecidableEq, Repr

/-- Whether the state holds a handle (array) of the given kind, as the
guards in `VulkanRenderer_Destroy` test it: the handle itself for the
scalar kinds, the array pointer for the array-backed kinds
(vulkan.c:1108-1110, 1136, 1148). -/
def DestroyState.hasHandle (s : DestroyState) : HandleKind → Bool
  | .imageAvailableSemaphore => s.image_available_semaphores.isSome
  | .renderFinishedSemaphore => s.render_finished_semaphores.isSome
  | .inFlightFence => s.in_flight_fences.isSome
  | .stagingMapping => s.staging_buffer_mapped
  | .stagingBuffer => s.staging_buffer
  | .stagingMemory => s.staging_buffer_memory
  | .descriptorPool => s.descriptor_pool
  | .textureSampler => s.texture_sampler
  | .textureImageView => s.texture_image_view
  | .textureImage => s.texture_image
  | .textureMemory => s.texture_memory
  | .vertexBuffer => s.vertex_buffer
  | .vertexMemory => s.vertex_buffer_memory
  | .indexBuffer => s.index_buffer
  | .indexMemory => s.index_buffer_memory
  | .commandPool => s.command_pool
  | .framebuffer => s.framebuffers.isSome
  | .graphicsPipeline => s.graphics_pipeline
  | .pipelineLayout => s.pipeline_layout
  | .descriptorSetLayout => s.descriptor_set_layout
  | .renderPass => s.render_pass
  | .swapchainImageView => s.swapchain_image_views.isSome
  | .swapchain => s.swapchain
  | .device => s.device
  | .surface => s.surface
  | .instanceHandle => s.instanceHandle

/-- Operations a guarded piece of state contributes to the teardown trace:
none when the guard (handle or array pointer) is NULL. -/
def optOps {α : Type} (o : Option α) (f : α → List DOp) : List DOp :=
  match o with
  | none => []
  | some a => f a

/-- One iteration of the sync-object destroy loop (vulkan.c:1107-1111):
each of the three arrays is guarded by its own pointer and contributes its
`slot`-th element, whatever that element holds. -/
def syncDestroySlot (ia rf f : Option (Handle × Handle))
    (slot : Handle × Handle → Handle) : List DOp :=
  optOps ia (fun p => [.destroy .imageAvailableSemaphore (slot p)])
  ++ optOps rf (fun p => [.destroy .renderFinishedSemaphore (slot p)])
  ++ optOps f (fun p => [.destroy .inFlightFence (slot p)])

/-- Model of `VulkanRenderer_Destroy` (vulkan.c:1102-1166) as the trace of
operations it performs, in source order. Each scalar destroy call is guarded
by a null check on the handle itself; the `MAX_FRAMES_IN_FLIGHT` loop
(vulkan.c:1107-1111) and the framebuffer / image-view loops
(vulkan.c:1136-1141, 1148-1153) are guarded only by the array pointer and
pass every element value to the driver, whether or not a creation call ever
wrote it. The device-idle wait (vulkan.c:1103-1105) runs first, only when
`vk.device` is non-null. -/
def VulkanRenderer_Destroy (s : DestroyState) : List DOp :=
  (if s.device then [.deviceWaitIdle] else [])
  ++ syncDestroySlot s.image_available_semaphores s.render_finished_semaphores
      s.in_flight_fences Prod.fst
  ++ syncDestroySlot s.image_available_semaphores s.render_finished_semaphores
      s.in_flight_fences Prod.snd
  ++ (if s.staging_buffer_mapped then [.destroy .stagingMapping .valid] else [])
  ++ (if s.staging_buffer then [.destroy .stagingBuffer .valid] else [])
  ++ (if s.staging_buffer_memory then [.destroy .stagingMemory .valid] else [])
  ++ (if s.descriptor_pool then [.destroy .descriptorPool .valid] else [])
  ++ (if s.texture_sampler then [.destroy .textureSampler .valid] else [])
  ++ (if s.texture_image_view then [.destroy .textureImageView .valid] else [])
  ++ (if s.texture_image then [.destroy .textureImage .valid] else [])
  ++ (if s.texture_memory then [.destroy .textureMemory .valid] else [])
  ++ (if s.vertex_buffer then [.destroy .vertexBuffer .valid] else [])
  ++ (if s.vertex_buffer_memory then [.destroy .vertexMemory .valid] else [])
  ++ (if s.index_buffer then [.destroy .indexBuffer .valid] else [])
  ++ (if s.index_buffer_memory then [.destroy .indexMemory .valid] else [])
  ++ (if s.command_pool then [.destroy .commandPool .valid] else [])
  ++ optOps s.framebuffers (fun l => l.map (fun h => .destroy .framebuffer h))
  ++ (if s.graphics_pipeline then [.destroy .graphicsPipeline .valid] else [])
  ++ (if s.pipeline_layout then [.destroy .pipelineLayout .valid] else [])
  ++ (if s.descriptor_set_layout then
        [.destroy .descriptorSetLayout .valid] else [])
  ++ (if s.render_pass then [.destroy .renderPass .valid] else [])
  ++ optOps s.swapchain_image_views
      (fun l => l.map (fun h => .destroy .swapchainImageView h))
  ++ (if s.swapchain then [.destroy .swapchain .valid] else [])
  ++ (if s.device then [.destroy .device .valid] else [])
  ++ (if s.surface then [.destroy .surface .valid] else [])
  ++ (if s.instanceHandle then [.destroy .instanceHandle .valid] else [])

/-- The three sync arrays' contents. -/
structure SyncArrays where
  imageAvailable : Handle × Handle
  renderFinished : Handle × Handle
  fences : Handle × Handle
deriving DecidableEq, Repr

/-- Results of the six creation calls of `CreateSyncObjects`
(vulkan.c:653-659), in execution order: slot 0's image-available semaphore,
render-finished semaphore and fence, then slot 1's three. -/
structure SyncCreateResults where
  ia0 : Bool
  rf0 : Bool
  f0 : Bool
  ia1 : Bool
  rf1 : Bool
  f1 : Bool
deriving DecidableEq, Repr

/-- Model of `CreateSyncObjects` (vulkan.c:641-663). The three arrays are
`malloc`ed up front (642-644), so every element starts `uninitialized`; the
loop writes each handle on a successful creation call, and the `||` chain
returns `false` at the first failing call (653-659), leaving that element
and every later one unwritten. The returned arrays are what
`VulkanRenderer_Destroy` later finds behind the (non-NULL) array
pointers. -/
def CreateSyncObjects (r : SyncCreateResults) : Bool × SyncArrays :=
  let u : Handle := .uninitialized
  let a0 : SyncArrays := ⟨(u, u), (u, u), (u, u)⟩
  if ¬r.ia0 then (false, a0) else
  let a1 := { a0 with imageAvailable := (.valid, u) }
  if ¬r.rf0 then (false, a1) else
  let a2 := { a1 with renderFinished := (.valid, u) }
  if ¬r.f0 then (false, a2) else
  let a3 := { a2 with fences := (.valid, u) }
  if ¬r.ia1 then (false, a3) else
  let a4 := { a3 with imageAvailable := (.valid, .valid) }
  if ¬r.rf1 then (false, a4) else
  let a5 := { a4 with renderFinished := (.valid, .valid) }
  if ¬r.f1 then (false, a5) else
  (true, { a5 with fences := (.valid, .valid) })

/-- The loop of `CreateFramebuffers` (vulkan.c:586-608): the array is
`malloc`ed for the full image count (587), each iteration creates one
framebuffer, and the function returns `false` at the first failure
(601-603), leaving that element and all later ones unwritten. `i` is the
loop counter, the second argument the remaining iterations. -/
def createFramebuffersLoop (ok : Nat → Bool) (i : Nat) : Nat → Bool × List Handle
  | 0 => (true, [])
  | n + 1 =>
    if ok i then
      let rest := createFramebuffersLoop ok (i + 1) n
      (rest.1, .valid :: rest.2)
    else
      (false, List.replicate (n + 1) .uninitialized)

/-- Model of `CreateFramebuffers` (vulkan.c:586-608) for a swapchain of
`count` images, `ok i` telling whether the `i`-th `vkCreateFramebuffer`
call succeeds. -/
def CreateFramebuffers (count : Nat) (ok : Nat → Bool) : Bool × List Handle :=
  createFramebuffersLoop ok 0 count

/-- Every element of every allocated handle array was actually written (or
is null): the condition under which the array destroy loops only pass
defined handle values to the driver. -/
def pairOk : Option (Handle × Handle) → Bool
  | none => true
  | some (a, b) => a.initialized && b.initialized

/-- List counterpart of `pairOk`. -/
def listOk : Option (List Handle) → Bool
  | none => true
  | some l => l.all Handle.initialized

/-- All five handle arrays of the state hold only written-or-null
elements. -/
def ArraysInitialized (s : DestroyState) : Bool :=
  pairOk s.image_available_semaphores && pairOk s.render_finished_semaphores
    && pairOk s.in_flight_fences && listOk s.framebuffers
    && listOk s.swapchain_image_views

/-- The state `VulkanRenderer_Destroy` runs on when `VulkanRenderer_Init`
fails inside `CreateSyncObjects` because the slot-0 `vkCreateFence` call
fails (vulkan.c:656) after both slot-0 semaphores succeeded: everything
created earlier in `Init` (vulkan.c:1080-1096, through `CreateSwapchain`
with 3 images, `CreateRenderPass`, `CreateDescriptorSetLayout`,
`CreateGraphicsPipeline`, `CreateFramebuffers`, `CreateCommandPool`,
`CreateVertexBuffer`, `CreateCommandBuffers`) is present, no texture or
staging resources exist yet, and the three sync arrays are allocated with
the partially-written contents `CreateSyncObjects` left behind. -/
def failedSyncInitState : DestroyState :=
  let sync := (CreateSyncObjects ⟨true, true, false, true, true, true⟩).2
  { image_available_semaphores := some sync.imageAvailable
    render_finished_semaphores := some sync.renderFinished
    in_flight_fences := some sync.fences
    staging_buffer_mapped := false
    staging_buffer := false
    staging_buffer_memory := false
    descriptor_pool := false
    texture_sampler := false
    texture_image_view := false
    texture_image := false
    texture_memory := false
    vertex_buffer := true
    vertex_buffer_memory := true
    index_buffer := true
    index_buffer_memory := true
    command_pool := true
    framebuffers := some [.valid, .valid, .valid]
    graphics_pipeline := true
    pipeline_layout := true
    descriptor_set_layout := true
    render_pass := true
    swapchain_image_views := some [.valid, .valid, .valid]
    swapchain := true
    device := true
    surface := true
    instanceHandle := true }

/-- The state `VulkanRenderer_Destroy` runs on when `VulkanRenderer_Init`
fails inside `CreateFramebuffers` (second of 3 framebuffers fails,
vulkan.c:601-603): the swapchain, render pass, descriptor-set layout and
pipeline exist, the framebuffer array is allocated with one valid and two
unwritten elements, and nothing after `CreateFramebuffers` in the `Init`
sequence was created. -/
def failedFramebufferInitState : DestroyState :=
  { image_available_semaphores := none
    render_finished_semaphores := none
    in_flight_fences := none
    staging_buffer_mapped := false
    staging_buffer := false
    staging_buffer_memory := false
    descriptor_pool := false
    texture_sampler := false
    texture_image_view := false
    texture_image := false
    texture_memory := false
    vertex_buffer := false
    vertex_buffer_memory := false
    index_buffer := false
    index_buffer_memory := false
    command_pool := false
    framebuffers := some (CreateFramebuffers 3 (fun i => decide (i = 0))).2
    graphics_pipeline := true
    pipeline_layout := true
    descriptor_set_layout := true
    render_pass := true
    swapchain_image_views := some [.valid, .valid, .valid]
    swapchain := true
    device := true
    surface := true
    instanceHandle := true }

/-- The state `VulkanRenderer_Destroy` runs on after a fully successful
`Init` (before any `BeginDraw`): every creation call succeeded, so every
array element was written. -/
def completeInitState : DestroyState :=
  { failedSyncInitState with
    image_available_semaphores := some (.valid, .valid)
    render_finished_semaphores := some (.valid, .valid)
    in_flight_fences := some (.valid, .valid) }

/-! ## Helper lemmas -/

/-- Membership in a guarded segment. -/
theorem mem_if_nil {α : Type} {c : Prop} [Decidable c] {x : α} {l : List α} :
    (x ∈ if c then l else []) ↔ c ∧ x ∈ l := by
  split <;> simp_all

/-- Membership in an option-guarded segment. -/
theorem mem_optOps {α : Type} {o : Option α} {f : α → List DOp} {x : DOp} :
    (x ∈ optOps o f) ↔ ∃ a, o = some a ∧ x ∈ f a := by
  cases o <;> simp [optOps]

/-- A `false` `isSome` means the option is `none`. -/
theorem isSome_false_eq_none {α : Type} {o : Option α}
    (h : o.isSome = false) : o = none := by
  cases o
  · rfl
  · exact absurd h (by simp)

/-- `findMemoryTypeLoop` returns `none` when no scanned memory type passes
both the type-filter bit test and the property mask test. -/
theorem findMemoryTypeLoop_eq_none (l : List Nat) (tf props : Nat) : ∀ j : Nat,
    (∀ i, i < l.length →
      ¬(tf.testBit (j + i) = true ∧ l.getD i 0 &&& props = props)) →
    findMemoryTypeLoop l tf props j = none := by
  induction l with
  | nil => intro j _; rfl
  | cons f rest ih =>
    intro j hnone
    have h0 := hnone 0 (by simp)
    simp only [Nat.add_zero, List.getD_cons_zero] at h0
    rw [findMemoryTypeLoop, if_neg (by simpa using h0)]
    refine ih (j + 1) (fun i hi => ?_)
    have := hnone (i + 1) (by simpa using Nat.succ_lt_succ hi)
    simpa [Nat.add_assoc, Nat.add_comm 1 i] using this

/-! ## Claims -/

/-- C7: for every surface capability envelope, the swapchain image count
requested at creation equals the capability minimum plus 1, clamped down to
the capability maximum whenever the reported maximum is nonzero; a zero
maximum (meaning unlimited) leaves the count unclamped. -/
theorem C7_image_count (minImageCount maxImageCount : Nat) :
    (maxImageCount = 0 →
      CreateSwapchain_imageCount minImageCount maxImageCount = minImageCount + 1) ∧
    (0 < maxImageCount →
      CreateSwapchain_imageCount minImageCount maxImageCount =
        Nat.min (minImageCount + 1) maxImageCount) := by
  constructor
  · intro h
    simp [CreateSwapchain_imageCount, h]
  · intro h
    simp only [CreateSwapchain_imageCount, Nat.min_def]
    split
    · next hcond => split <;> omega
    · next hcond => split <;> omega

/-- Witness for C7 at a concrete envelope: minimum 2, maximum 3 clamps the
requested count to 3; maximum 0 leaves it at minimum + 1. -/
theorem C7_image_count_witness :
    CreateSwapchain_imageCount 2 0 = 3 ∧ CreateSwapchain_imageCount 3 3 = 3 := by
  refine ⟨(C7_image_count 2 0).1 rfl, ?_⟩
  rw [(C7_image_count 3 3).2 (by decide)]
  decide

/-- C5: shader bytecode whose leading word is not the SPIR-V magic number, or
whose byte size is not a multiple of 4, is rejected locally — the driver is
never called and the outcome is one of the two local-rejection results,
never a driver failure; bytecode whose leading word is the magic number
(with `size` the actual byte size of the word list) is passed to the driver
unchanged. -/
theorem C5_shader_validation (code : List Nat) (size : Nat) (driverResult : Int) :
    ((code.headD 0 ≠ SPIRV_MAGIC ∨ size % 4 ≠ 0) →
      (CreateShaderModule code size driverResult).2 = none ∧
      ((CreateShaderModule code size driverResult).1 = .rejectedMagic ∨
       (CreateShaderModule code size driverResult).1 = .rejectedSize) ∧
      ∀ r : Int, (CreateShaderModule code size driverResult).1 ≠ .driverFailure r) ∧
    (size = 4 * code.length → code.headD 0 = SPIRV_MAGIC →
      (CreateShaderModule code size driverResult).2 = some (code, size)) := by
  constructor
  · intro hbad
    simp only [CreateShaderModule]
    rcases hbad with hmagic | hsize
    · rw [if_pos (Or.inr hmagic)]
      exact ⟨rfl, Or.inl rfl, fun r => by simp⟩
    · by_cases h4 : size < 4 ∨ code.headD 0 ≠ SPIRV_MAGIC
      · rw [if_pos h4]
        exact ⟨rfl, Or.inl rfl, fun r => by simp⟩
      · rw [if_neg h4, if_pos hsize]
        exact ⟨rfl, Or.inr rfl, fun r => by simp⟩
  · intro hsize hmagic
    have hne : code ≠ [] := by
      intro h
      rw [h] at hmagic
      simp [SPIRV_MAGIC] at hmagic
    have hlen : 1 ≤ code.length := by
      cases code with
      | nil => exact absurd rfl hne
      | cons a l => simp
    have h4le : ¬(size < 4 ∨ code.headD 0 ≠ SPIRV_MAGIC) := by
      push_neg
      exact ⟨by omega, hmagic⟩
    have hmod : ¬(size % 4 ≠ 0) := by omega
    simp only [CreateShaderModule, if_neg h4le, if_neg hmod]
    split <;> rfl

/-- Witness for C5: bytecode `[2, 0]` (wrong magic, 8 bytes) is rejected
locally; bytecode `[0x07230203, 7]` (correct magic, 8 bytes) reaches the
driver unchanged. -/
theorem C5_shader_validation_witness :
    (CreateShaderModule [2, 0] 8 0).2 = none ∧
    (CreateShaderModule [0x07230203, 7] 8 0).2 = some ([0x07230203, 7], 8) := by
  exact ⟨((C5_shader_validation [2, 0] 8 0).1 (by decide)).1,
         (C5_shader_validation [0x07230203, 7] 8 0).2 rfl (by decide)⟩

/-- C10: when no available memory type satisfies both the type filter and
the requested property flags, `FindMemoryType` returns index 0 — the same
value as a genuine match at index 0 — and `CreateBuffer` (and `CreateImage`)
place that result into the allocation's `memoryTypeIndex` with no failure
check, so allocation proceeds with a possibly unsuitable memory type. -/
theorem C10_memory_type_fallback (memoryTypes : List Nat) (tf props : Nat) :
    ((∀ i, i < memoryTypes.length →
        ¬(tf.testBit i = true ∧ memoryTypes.getD i 0 &&& props = props)) →
      FindMemoryType memoryTypes tf props = 0) ∧
    (∀ flags0 rest, memoryTypes = flags0 :: rest → tf.testBit 0 = true →
      flags0 &&& props = props → FindMemoryType memoryTypes tf props = 0) ∧
    CreateBuffer_memoryTypeIndex memoryTypes tf props =
      FindMemoryType memoryTypes tf props := by
  refine ⟨fun hnone => ?_, fun flags0 rest hmt hbit hmask => ?_, rfl⟩
  · rw [FindMemoryType, findMemoryTypeLoop_eq_none memoryTypes tf props 0
      (by simpa using hnone)]
    rfl
  · subst hmt
    rw [FindMemoryType, findMemoryTypeLoop, if_pos ⟨hbit, hmask⟩]
    rfl

/-- Witness for C10: with two memory types `[1, 1]`, filter `0b10` and
requested properties `2`, no type matches and the result is 0 — identical
to the genuine match at index 0 obtained with filter `0b01` and
properties `1`. -/
theorem C10_memory_type_fallback_witness :
    FindMemoryType [1, 1] 2 2 = 0 ∧ FindMemoryType [1, 1] 1 1 = 0 := by
  exact ⟨(C10_memory_type_fallback [1, 1] 2 2).1 (by decide),
         (C10_memory_type_fallback [1, 1] 1 1).2.1 1 [1] rfl (by decide) (by decide)⟩

/-- `findQueueFamilyLoop` returns `none` exactly when no family in the list
is suitable. -/
theorem findQueueFamilyLoop_eq_none_iff (l : List QueueFamily) : ∀ i : Nat,
    findQueueFamilyLoop l i = none ↔ ∀ q ∈ l, q.suitable = false := by
  induction l with
  | nil => intro i; simp [findQueueFamilyLoop]
  | cons q rest ih =>
    intro i
    rw [findQueueFamilyLoop]
    by_cases hq : q.suitable = true
    · simp [hq]
    · simp only [Bool.not_eq_true] at hq
      simp [hq, ih (i + 1)]

/-- When `findQueueFamilyLoop` starting at `i` returns `some j`, the family
at offset `j - i` is the first suitable one. -/
theorem findQueueFamilyLoop_eq_some (l : List QueueFamily) : ∀ i j : Nat,
    findQueueFamilyLoop l i = some j →
    ∃ k, j = i + k ∧ k < l.length ∧
      (l.getD k ⟨false, false⟩).suitable = true ∧
      ∀ m, m < k → (l.getD m ⟨false, false⟩).suitable = false := by
  induction l with
  | nil => intro i j h; exact absurd h (by simp [findQueueFamilyLoop])
  | cons q rest ih =>
    intro i j h
    rw [findQueueFamilyLoop] at h
    by_cases hq : q.suitable = true
    · rw [if_pos hq] at h
      obtain rfl : i = j := by simpa using h
      exact ⟨0, by omega, by simp, by simpa using hq,
        fun m hm => absurd hm (Nat.not_lt_zero m)⟩
    · simp only [Bool.not_eq_true] at hq
      rw [if_neg (by simp [hq])] at h
      obtain ⟨k, hk, hlt, hsuit, hmin⟩ := ih (i + 1) j h
      refine ⟨k + 1, by omega, by simpa using Nat.succ_lt_succ hlt,
        by simpa using hsuit, fun m hm => ?_⟩
      cases m with
      | zero => simpa using hq
      | succ m => simpa using hmin m (by omega)

/-- C3 counterexample: with two enumerated GPUs where only the second exposes
a queue family supporting both graphics and present, initialization fails
(`none`), although a GPU qualifying under the claim exists — the behaviour
the claim describes (`selectDeviceSpec`) would pick GPU 1. -/
theorem C3_counterexample :
    VulkanRenderer_Init_selectDevice
      [[⟨true, false⟩], [⟨true, true⟩]] = none ∧
    selectDeviceSpec [[⟨true, false⟩], [⟨true, true⟩]] = some (1, 0) := by
  decide

/-- C3 amended: initialization unconditionally selects the FIRST enumerated
GPU (index 0) and searches only its queue families; it returns an
initialization error exactly when no GPU is enumerated or the first GPU has
no queue family supporting both graphics submission and presentation, and on
success returns the first such family of GPU 0. -/
theorem C3_first_gpu_only (devices : List (List QueueFamily)) :
    (VulkanRenderer_Init_selectDevice devices = none ↔
      devices = [] ∨ ∀ q ∈ devices.headD [], q.suitable = false) ∧
    (∀ g f, VulkanRenderer_Init_selectDevice devices = some (g, f) →
      g = 0 ∧ ∃ d0 rest, devices = d0 :: rest ∧ f < d0.length ∧
        (d0.getD f ⟨false, false⟩).suitable = true ∧
        ∀ m, m < f → (d0.getD m ⟨false, false⟩).suitable = false) := by
  constructor
  · cases devices with
    | nil => simp [VulkanRenderer_Init_selectDevice]
    | cons d0 rest =>
      rw [VulkanRenderer_Init_selectDevice]
      cases hfind : findQueueFamilyLoop d0 0 with
      | none =>
        simp only [List.headD_cons]
        rw [← findQueueFamilyLoop_eq_none_iff d0 0]
        simp [hfind]
      | some f =>
        constructor
        · intro h; simp at h
        · rintro (h | hall)
          · exact absurd h (by simp)
          · rw [(findQueueFamilyLoop_eq_none_iff d0 0).2 (by simpa using hall)] at hfind
            exact absurd hfind (by simp)
  · intro g f h
    cases devices with
    | nil => exact absurd h (by simp [VulkanRenderer_Init_selectDevice])
    | cons d0 rest =>
      rw [VulkanRenderer_Init_selectDevice] at h
      cases hfind : findQueueFamilyLoop d0 0 with
      | none => rw [hfind] at h; exact absurd h (by simp)
      | some j =>
        rw [hfind] at h
        obtain ⟨hg, hfj⟩ : 0 = g ∧ j = f := by simpa using h
        subst hg
        subst hfj
        obtain ⟨k, hk, hlt, hsuit, hmin⟩ := findQueueFamilyLoop_eq_some d0 0 j hfind
        simp only [Nat.zero_add] at hk
        subst hk
        exact ⟨rfl, d0, rest, rfl, hlt, hsuit, hmin⟩

/-- Witness for C3 amended: an empty enumeration fails, a first GPU with no
suitable family fails, and a selected pair always names GPU 0 with its first
suitable family. -/
theorem C3_first_gpu_only_witness :
    VulkanRenderer_Init_selectDevice [] = none ∧
    VulkanRenderer_Init_selectDevice [[⟨true, false⟩]] = none ∧
    (0 = 0 ∧ ∃ d0 rest,
      ([[⟨true, false⟩, ⟨true, true⟩]] : List (List QueueFamily)) = d0 :: rest ∧
      1 < d0.length ∧ (d0.getD 1 ⟨false, false⟩).suitable = true ∧
      ∀ m, m < 1 → (d0.getD m ⟨false, false⟩).suitable = false) := by
  exact ⟨(C3_first_gpu_only []).1.2 (Or.inl rfl),
         (C3_first_gpu_only [[⟨true, false⟩]]).1.2 (Or.inr (by decide)),
         (C3_first_gpu_only [[⟨true, false⟩, ⟨true, true⟩]]).2 0 1 (by decide)⟩

/-- C6: `BeginDraw` with dimensions equal to the previous call's is an
idempotent no-op apart from returning the pointer and pitch (no resource is
destroyed or created); a dimension change while a texture exists destroys and
recreates the texture and staging buffer exactly once, the new image using
the non-SRGB `B8G8R8A8_UNORM` format and a staging buffer of
`width*height*4` bytes; and the sequence 256×224 → 512×448 → 256×224 from
the initial state recreates them exactly twice (three creations, two
destroy-and-recreate cycles). -/
theorem C6_texture_resize :
    (∀ (s : TexState) (w h : Nat), s.pixel_buffer.isSome = true →
      s.texture_width = w → s.texture_height = h →
      VulkanRenderer_BeginDraw s w h = (s, .pixelBuffer, w * 4)) ∧
    (∀ (s : TexState) (w h : Nat), s.hasTexture = true →
      (s.texture_width ≠ w ∨ s.texture_height ≠ h) →
      (VulkanRenderer_BeginDraw s w h).1.destroyCount = s.destroyCount + 1 ∧
      (VulkanRenderer_BeginDraw s w h).1.createCount = s.createCount + 1 ∧
      (VulkanRenderer_BeginDraw s w h).1.textureFormat =
        some VkFormat.B8G8R8A8_UNORM ∧
      (VulkanRenderer_BeginDraw s w h).1.stagingSize = w * h * 4) ∧
    ((VulkanRenderer_BeginDraw
        (VulkanRenderer_BeginDraw
          (VulkanRenderer_BeginDraw initTexState 256 224).1 512 448).1
        256 224).1.destroyCount = 2 ∧
     (VulkanRenderer_BeginDraw
        (VulkanRenderer_BeginDraw
          (VulkanRenderer_BeginDraw initTexState 256 224).1 512 448).1
        256 224).1.createCount = 3 ∧
     (VulkanRenderer_BeginDraw
        (VulkanRenderer_BeginDraw
          (VulkanRenderer_BeginDraw initTexState 256 224).1 512 448).1
        256 224).1.textureFormat = some VkFormat.B8G8R8A8_UNORM ∧
     (VulkanRenderer_BeginDraw
        (VulkanRenderer_BeginDraw
          (VulkanRenderer_BeginDraw initTexState 256 224).1 512 448).1
        256 224).1.stagingSize = 256 * 224 * 4) := by
  refine ⟨fun s w h hpb hw hh => ?_, fun s w h htex hdim => ?_, by decide⟩
  · rw [VulkanRenderer_BeginDraw,
      if_neg (by simp [Option.isNone_iff_eq_none, hw, hh,
        Option.ne_none_iff_isSome.2 hpb])]
  · have hcond : s.pixel_buffer.isNone = true ∨
        s.texture_width ≠ w ∨ s.texture_height ≠ h := Or.inr hdim
    rw [VulkanRenderer_BeginDraw, if_pos hcond]
    simp [CreateTextureResources, htex]

/-- Witness for C6: from the state after a first 256×224 call, a repeat call
with 256×224 is a no-op, and a 512×448 call recreates once with the non-SRGB
format and a 512*448*4-byte staging buffer. -/
theorem C6_texture_resize_witness :
    VulkanRenderer_BeginDraw (VulkanRenderer_BeginDraw initTexState 256 224).1
      256 224 =
      ((VulkanRenderer_BeginDraw initTexState 256 224).1, .pixelBuffer,
        256 * 4) ∧
    (VulkanRenderer_BeginDraw (VulkanRenderer_BeginDraw initTexState 256 224).1
      512 448).1.destroyCount =
      (VulkanRenderer_BeginDraw initTexState 256 224).1.destroyCount + 1 ∧
    (VulkanRenderer_BeginDraw (VulkanRenderer_BeginDraw initTexState 256 224).1
      512 448).1.stagingSize = 512 * 448 * 4 := by
  refine ⟨C6_texture_resize.1 _ 256 224 (by decide) (by decide) (by decide),
    (C6_texture_resize.2.1 _ 512 448 (by decide) (by decide)).1,
    (C6_texture_resize.2.1 _ 512 448 (by decide) (by decide)).2.2.2⟩

/-- C1 counterexample: at the concrete frame 256×224, the pixel pointer
returned by `BeginDraw` is `vk.pixel_buffer`, not the mapped staging buffer,
and the subsequent successful `EndDraw` performs a separate `memcpy` of the
pixel data (width×height×4 bytes) from that buffer into the staging
buffer — contradicting both halves of the claim (the pitch width×4 part
does hold and is kept in the amended claim). -/
theorem C1_counterexample :
    (VulkanRenderer_BeginDraw initTexState 256 224).2.1 ≠
      BufPtr.stagingMapped ∧
    VkOp.memcpyOp BufPtr.stagingMapped BufPtr.pixelBuffer (256 * 224 * 4) ∈
      ((VulkanRenderer_EndDraw
          { initFrameState with
            tex := (VulkanRenderer_BeginDraw initTexState 256 224).1 }
          ⟨false, false⟩).map Prod.snd).getD [] := by
  decide

/-- C1 amended: `BeginDraw` always hands the frame producer the renderer's
own heap pixel buffer (`vk.pixel_buffer`, a different allocation from the
mapped staging buffer) with row pitch width×4, and every `EndDraw` call that
passes the acquire step performs exactly one pixel-data `memcpy`, copying
`texture_width*texture_height*4` bytes from that pixel buffer into the
persistently-mapped staging buffer, which is then the upload source. -/
theorem C1_pixel_path (s : TexState) (w h : Nat) (fs : FrameState)
    (e : EndDrawEnv) :
    (VulkanRenderer_BeginDraw s w h).2 = (BufPtr.pixelBuffer, w * 4) ∧
    (∀ fs' tr, VulkanRenderer_EndDraw fs e = some (fs', tr) →
      e.acquireOutOfDate = false →
      (tr.count (VkOp.memcpyOp BufPtr.stagingMapped BufPtr.pixelBuffer
        (fs.tex.texture_width * fs.tex.texture_height * 4)) = 1 ∧
       ∀ dst src n, VkOp.memcpyOp dst src n ∈ tr →
         dst = BufPtr.stagingMapped ∧ src = BufPtr.pixelBuffer ∧
         n = fs.tex.texture_width * fs.tex.texture_height * 4)) := by
  constructor
  · rw [VulkanRenderer_BeginDraw]
    split <;> rfl
  · intro fs' tr hrun hacq
    simp only [VulkanRenderer_EndDraw] at hrun
    split at hrun
    · exact absurd hrun (by simp)
    · split at hrun
      · next hcond => rw [hacq] at hcond; exact absurd hcond (by simp)
      · split at hrun <;>
          · injection hrun with hp
            injection hp with h1 h2
            subst h1
            subst h2
            constructor
            · simp [List.count_cons, List.count_append, List.count_nil]
            · intro dst src n hmem
              simp only [List.mem_append, List.mem_cons,
                List.not_mem_nil, or_false] at hmem
              rcases hmem with h | h | h | h | h | h <;> simp_all

/-- Witness for C1 amended: concrete 256×224 frame — the returned pointer and
pitch, and the unique memcpy in the successful `EndDraw` trace. -/
theorem C1_pixel_path_witness :
    (VulkanRenderer_BeginDraw initTexState 256 224).2 =
      (BufPtr.pixelBuffer, 256 * 4) ∧
    ∀ fs' tr,
      VulkanRenderer_EndDraw
        { initFrameState with
          tex := (VulkanRenderer_BeginDraw initTexState 256 224).1 }
        ⟨false, false⟩ = some (fs', tr) →
      tr.count (VkOp.memcpyOp BufPtr.stagingMapped BufPtr.pixelBuffer
        (256 * 224 * 4)) = 1 := by
  refine ⟨(C1_pixel_path initTexState 256 224 initFrameState
    ⟨false, false⟩).1, fun fs' tr hrun => ?_⟩
  exact ((C1_pixel_path initTexState 256 224
    { initFrameState with
      tex := (VulkanRenderer_BeginDraw initTexState 256 224).1 }
    ⟨false, false⟩).2 fs' tr hrun rfl).1

/-- Fence invariant of the frame loop: neither slot's fence is unsignaled
without an outstanding submission. -/
def FencesOk (s : FrameState) : Prop :=
  s.fence0 ≠ .unsignaled ∧ s.fence1 ≠ .unsignaled

theorem setFence_fence0 (s : FrameState) (i : Nat) (f : FenceStatus) :
    (s.setFence i f).fence0 = if i = 0 then f else s.fence0 := by
  rw [FrameState.setFence]
  split <;> simp_all

theorem setFence_fence1 (s : FrameState) (i : Nat) (f : FenceStatus) :
    (s.setFence i f).fence1 = if i = 0 then s.fence1 else f := by
  rw [FrameState.setFence]
  split <;> simp_all

theorem setFence_currentFrame (s : FrameState) (i : Nat) (f : FenceStatus) :
    (s.setFence i f).currentFrame = s.currentFrame := by
  rw [FrameState.setFence]
  split <;> rfl

theorem setFence_fenceAt_self (s : FrameState) (i : Nat) (f : FenceStatus) :
    (s.setFence i f).fenceAt i = f := by
  rw [FrameState.setFence, FrameState.fenceAt]
  split <;> simp_all

/-- When both slots' fences are signaled or pending and the submission
succeeds, `VulkanRenderer_EndDraw` completes (no deadlock) and re-establishes
the invariant: the slot's fence ends `signaled` (aborted frame) or `pending`
(submitted frame), never bare `unsignaled`. -/
theorem endDraw_submit_ok (s : FrameState) (e : EndDrawEnv) (hs : FencesOk s)
    (he : e.submitFails = false) :
    ∃ s' tr, VulkanRenderer_EndDraw s e = some (s', tr) ∧ FencesOk s' := by
  have hfence : ¬s.fenceAt s.currentFrame = .unsignaled := by
    rw [FrameState.fenceAt]
    split
    · exact hs.1
    · exact hs.2
  by_cases hacq : e.acquireOutOfDate = true
  · refine ⟨s.setFence s.currentFrame .signaled, [.waitFence s.currentFrame,
      .acquire s.currentFrame], ?_, ?_⟩
    · simp only [VulkanRenderer_EndDraw, if_neg hfence, hacq, if_true]
    · constructor <;> simp [setFence_fence0, setFence_fence1] <;> split <;>
        simp_all [FencesOk]
  · have hacq' : e.acquireOutOfDate = false := by
      revert hacq
      cases e.acquireOutOfDate <;> simp
    refine ⟨{ ((s.setFence s.currentFrame .signaled).setFence s.currentFrame
        .unsignaled).setFence s.currentFrame .pending with
        currentFrame := (s.currentFrame + 1) % 2 },
      [.waitFence s.currentFrame, .acquire s.currentFrame,
       .resetFence s.currentFrame,
       .memcpyOp .stagingMapped .pixelBuffer
         (s.tex.texture_width * s.tex.texture_height * 4),
       .submit s.currentFrame] ++ [.present], ?_, ?_⟩
    · simp only [VulkanRenderer_EndDraw, if_neg hfence, hacq',
        Bool.false_eq_true, if_false, he]
    · constructor <;> simp [setFence_fence0, setFence_fence1] <;> split <;>
        simp_all [FencesOk]

/-- Under the fence invariant and always-successful submission, no sequence
of `EndDraw` calls deadlocks. -/
theorem runEndDraws_isSome (envs : List EndDrawEnv) : ∀ s : FrameState,
    FencesOk s → (∀ e ∈ envs, e.submitFails = false) →
    (runEndDraws s envs).isSome = true := by
  induction envs with
  | nil => intro s _ _; rfl
  | cons e rest ih =>
    intro s hs hall
    obtain ⟨s', tr, hstep, hs'⟩ :=
      endDraw_submit_ok s e hs (hall e (by simp))
    have hrest := ih s' hs' (fun e' he' => hall e' (by simp [he']))
    cases hrec : runEndDraws s' rest with
    | none => rw [hrec] at hrest; exact absurd hrest (by simp)
    | some p => simp only [runEndDraws, hstep, hrec, Option.isSome_some]

/-- C4 counterexample: two `EndDraw` calls deadlock when the first call's
queue submission fails — the fence for slot 0 was reset after the acquire
but is never re-signaled (vulkan.c:1329-1332 returns without submitting and
without advancing the slot), so the second call's fence wait blocks forever.
The first call alone completes, so the deadlock is real, not an artifact of
an unsatisfiable start state. -/
theorem C4_counterexample :
    runEndDraws initFrameState
      [⟨false, true⟩, ⟨false, false⟩] = none ∧
    (runEndDraws initFrameState [⟨false, true⟩]).isSome = true := by
  decide

/-- C4 amended: PROVIDED every queue submission succeeds, calling `EndDraw`
N times in a row never deadlocks: each slot's fence is created signaled
(`initFrameState`), an aborted (out-of-date) frame leaves the slot's fence
signaled, and a submitted frame leaves it pending re-signal by the GPU — so
the fence wait at the start of each call is always eventually satisfied.
(Without that proviso the claim is false: see the submission-failure
counterexample.) -/
theorem C4_no_deadlock (envs : List EndDrawEnv) (s : FrameState)
    (eAbort : EndDrawEnv) :
    (initFrameState.fence0 = .signaled ∧ initFrameState.fence1 = .signaled) ∧
    (FencesOk s → (∀ e ∈ envs, e.submitFails = false) →
      (runEndDraws s envs).isSome = true) ∧
    (∀ s1 tr, eAbort.acquireOutOfDate = true →
      VulkanRenderer_EndDraw s eAbort = some (s1, tr) →
      s1.fenceAt s.currentFrame = .signaled) := by
  refine ⟨⟨rfl, rfl⟩, fun hs hall => runEndDraws_isSome envs s hs hall,
    fun s1 tr hacq hrun => ?_⟩
  simp only [VulkanRenderer_EndDraw] at hrun
  split at hrun
  · exact absurd hrun (by simp)
  · injection hrun with hp
    injection hp with h1 h2
    subst h1
    exact setFence_fenceAt_self s s.currentFrame .signaled

/-- Witness for C4: 500 successful-submission calls from the initial state
(with an out-of-date abort mixed in) complete without deadlock, and a
concrete aborted call leaves slot 0's fence signaled. -/
theorem C4_no_deadlock_witness :
    (runEndDraws initFrameState
      (List.replicate 250 (⟨true, false⟩ : EndDrawEnv) ++
       List.replicate 250 (⟨false, false⟩ : EndDrawEnv))).isSome = true ∧
    (initFrameState.setFence 0 .signaled).fenceAt 0 = .signaled := by
  constructor
  · refine (C4_no_deadlock _ initFrameState ⟨true, false⟩).2.1
      ⟨by decide, by decide⟩ (fun e he => ?_)
    rcases List.mem_append.1 he with h | h <;>
      rw [List.eq_of_mem_replicate h]
  · exact (C4_no_deadlock [] initFrameState ⟨true, false⟩).2.2
      (initFrameState.setFence 0 .signaled) [.waitFence 0, .acquire 0] rfl
      (by decide)

/-- One `EndDraw` call advances `current_frame` by the number of presents it
performs, modulo 2, and keeps it below 2. -/
theorem endDraw_frame_mod (s : FrameState) (e : EndDrawEnv)
    (s' : FrameState) (tr : List VkOp)
    (hrun : VulkanRenderer_EndDraw s e = some (s', tr))
    (hlt : s.currentFrame < 2) :
    s'.currentFrame = (s.currentFrame + countPresents tr) % 2 ∧
      s'.currentFrame < 2 := by
  simp only [VulkanRenderer_EndDraw] at hrun
  split at hrun
  · exact absurd hrun (by simp)
  · split at hrun
    · injection hrun with hp
      injection hp with h1 h2
      subst h1
      subst h2
      rw [setFence_currentFrame]
      constructor
      · simp [countPresents, List.count_cons]
        omega
      · exact hlt
    · split at hrun
      · injection hrun with hp
        injection hp with h1 h2
        subst h1
        subst h2
        rw [setFence_currentFrame, setFence_currentFrame]
        have hcp : countPresents
            [VkOp.waitFence s.currentFrame, VkOp.acquire s.currentFrame,
             VkOp.resetFence s.currentFrame,
             VkOp.memcpyOp .stagingMapped .pixelBuffer
               (s.tex.texture_width * s.tex.texture_height * 4),
             VkOp.submit s.currentFrame] = 0 := by
          simp [countPresents, List.count_cons]
        rw [hcp]
        exact ⟨by omega, hlt⟩
      · injection hrun with hp
        injection hp with h1 h2
        subst h1
        subst h2
        have hcp : countPresents
            ([VkOp.waitFence s.currentFrame, VkOp.acquire s.currentFrame,
              VkOp.resetFence s.currentFrame,
              VkOp.memcpyOp .stagingMapped .pixelBuffer
                (s.tex.texture_width * s.tex.texture_height * 4),
              VkOp.submit s.currentFrame] ++ [VkOp.present]) = 1 := by
          simp [countPresents, List.count_cons, List.count_append]
        rw [hcp]
        refine ⟨rfl, ?_⟩
        show (s.currentFrame + 1) % 2 < 2
        omega

/-- Any run of `EndDraw` calls advances `current_frame` by the number of
presented frames modulo 2. -/
theorem runEndDraws_frame_mod (envs : List EndDrawEnv) : ∀ (s : FrameState)
    (s' : FrameState) (tr : List VkOp),
    runEndDraws s envs = some (s', tr) → s.currentFrame < 2 →
    s'.currentFrame = (s.currentFrame + countPresents tr) % 2 ∧
      s'.currentFrame < 2 := by
  induction envs with
  | nil =>
    intro s s' tr hrun hlt
    obtain ⟨h1, h2⟩ : s = s' ∧ [] = tr := by simpa [runEndDraws] using hrun
    subst h1
    subst h2
    simpa [countPresents] using ⟨by omega, hlt⟩
  | cons e rest ih =>
    intro s s' tr hrun hlt
    cases hstep : VulkanRenderer_EndDraw s e with
    | none =>
      simp only [runEndDraws, hstep] at hrun
      exact Option.noConfusion hrun
    | some p =>
      obtain ⟨s1, tr1⟩ := p
      cases hrec : runEndDraws s1 rest with
      | none =>
        simp only [runEndDraws, hstep, hrec] at hrun
        exact Option.noConfusion hrun
      | some q =>
        obtain ⟨s2, tr2⟩ := q
        simp only [runEndDraws, hstep, hrec] at hrun
        obtain ⟨h1, h2⟩ : s2 = s' ∧ tr1 ++ tr2 = tr := by simpa using hrun
        subst h1
        subst h2
        obtain ⟨hm1, hl1⟩ := endDraw_frame_mod s e s1 tr1 hstep hlt
        obtain ⟨hm2, hl2⟩ := ih s1 s2 tr2 hrec hl1
        refine ⟨?_, hl2⟩
        rw [hm2, hm1]
        simp only [countPresents, List.count_append]
        omega

/-- C8: starting from the initial state, after any sequence of `EndDraw`
calls the frame-in-flight slot index is one of exactly 2 values
(`current_frame < 2`) and equals the number of frames that reached
presentation modulo 2; a call that presents nothing (a dropped frame) leaves
the slot index unchanged. -/
theorem C8_slot_alternation :
    (∀ (envs : List EndDrawEnv) (s' : FrameState) (tr : List VkOp),
      runEndDraws initFrameState envs = some (s', tr) →
      s'.currentFrame < 2 ∧ s'.currentFrame = countPresents tr % 2) ∧
    (∀ (s : FrameState) (e : EndDrawEnv) (s' : FrameState) (tr : List VkOp),
      VulkanRenderer_EndDraw s e = some (s', tr) → countPresents tr = 0 →
      s'.currentFrame = s.currentFrame) := by
  constructor
  · intro envs s' tr hrun
    obtain ⟨hm, hl⟩ := runEndDraws_frame_mod envs initFrameState s' tr hrun
      (by decide)
    exact ⟨hl, by simpa [initFrameState] using hm⟩
  · intro s e s' tr hrun hzero
    simp only [VulkanRenderer_EndDraw] at hrun
    split at hrun
    · exact absurd hrun (by simp)
    · split at hrun
      · injection hrun with hp
        injection hp with h1 h2
        subst h1
        exact setFence_currentFrame s s.currentFrame .signaled
      · split at hrun
        · injection hrun with hp
          injection hp with h1 h2
          subst h1
          simp [setFence_currentFrame]
        · injection hrun with hp
          injection hp with h1 h2
          subst h2
          rw [countPresents] at hzero
          simp [List.count_append, List.count_cons] at hzero

/-- Witness for C8: three calls — a presented frame, a dropped (out-of-date)
frame, and another presented frame — end on slot 0 with 2 presents, and the
dropped call leaves the slot unchanged. -/
theorem C8_slot_alternation_witness :
    (∀ s' tr, runEndDraws initFrameState
        [⟨false, false⟩, ⟨true, false⟩, ⟨false, false⟩] = some (s', tr) →
      s'.currentFrame < 2 ∧ s'.currentFrame = countPresents tr % 2) ∧
    ∀ s' tr, VulkanRenderer_EndDraw initFrameState ⟨true, false⟩ =
        some (s', tr) →
      s'.currentFrame = initFrameState.currentFrame :=
  ⟨fun s' tr h => C8_slot_alternation.1 _ s' tr h,
   fun s' tr h => C8_slot_alternation.2 initFrameState ⟨true, false⟩ s' tr h
     (by
        have h2 : s' = initFrameState ∧
            tr = [VkOp.waitFence 0, VkOp.acquire 0] := by
          simpa using h.symm.trans (by decide :
            VulkanRenderer_EndDraw initFrameState ⟨true, false⟩ =
              some (initFrameState, [VkOp.waitFence 0, VkOp.acquire 0]))
        rw [h2.2]
        decide)⟩

/-- C2: no swapchain recreation exists in the engine — every completed
`EndDraw` trace is free of recreation, `OnResize` performs no operation and
leaves the state untouched, and the concrete out-of-date acquire simply
drops the frame (wait + acquire only, fence left signaled, slot
unchanged). -/
theorem C2_no_recreation :
    (∀ (s : FrameState) (e : EndDrawEnv) (s' : FrameState) (tr : List VkOp),
      VulkanRenderer_EndDraw s e = some (s', tr) →
      VkOp.recreateSwapchain ∉ tr) ∧
    (∀ (s : FrameState) (w h : Nat), VulkanRenderer_OnResize s w h = (s, [])) ∧
    VulkanRenderer_EndDraw initFrameState ⟨true, false⟩ =
      some (initFrameState, [VkOp.waitFence 0, VkOp.acquire 0]) := by
  refine ⟨fun s e s' tr hrun => ?_, fun s w h => rfl, by decide⟩
  simp only [VulkanRenderer_EndDraw] at hrun
  split at hrun
  · exact absurd hrun (by simp)
  · split at hrun
    · injection hrun with hp
      injection hp with h1 h2
      subst h2
      simp
    · split at hrun <;>
        · injection hrun with hp
          injection hp with h1 h2
          subst h2
          simp

/-- Witness for C2: the trace of a successful frame from the initial state
contains no recreation either. -/
theorem C2_no_recreation_witness :
    VkOp.recreateSwapchain ∉
      ([.waitFence 0, .acquire 0, .resetFence 0,
        .memcpyOp .stagingMapped .pixelBuffer 0, .submit 0,
        .present] : List VkOp) :=
  C2_no_recreation.1 initFrameState ⟨false, false⟩
    { initFrameState.setFence 0 .pending with currentFrame := 1 }
    [.waitFence 0, .acquire 0, .resetFence 0,
     .memcpyOp .stagingMapped .pixelBuffer 0, .submit 0, .present]
    (by decide)

/-- C9 counterexample: the claim's `safe to call on any partially
constructed state, including after a failed initialization` fails on a
reachable state. When `CreateSyncObjects`' slot-0 `vkCreateFence` call
fails (vulkan.c:656), the function returns failure with the three arrays
allocated but the fence elements and the slot-1 semaphores never written;
`Destroy` on the resulting state passes those uninitialized handles to
`vkDestroySemaphore`/`vkDestroyFence` (vulkan.c:1107-1111) — a destroy path
that does not tolerate the unset handles. The same happens for
`vkDestroyFramebuffer` when `CreateFramebuffers` fails mid-loop
(vulkan.c:601-603, 1136-1141). -/
theorem C9_counterexample :
    (CreateSyncObjects ⟨true, true, false, true, true, true⟩).1 = false ∧
    ArraysInitialized failedSyncInitState = false ∧
    DOp.destroy HandleKind.inFlightFence Handle.uninitialized ∈
      VulkanRenderer_Destroy failedSyncInitState ∧
    DOp.destroy HandleKind.imageAvailableSemaphore Handle.uninitialized ∈
      VulkanRenderer_Destroy failedSyncInitState ∧
    (CreateFramebuffers 3 (fun i => decide (i = 0))).1 = false ∧
    DOp.destroy HandleKind.framebuffer Handle.uninitialized ∈
      VulkanRenderer_Destroy failedFramebufferInitState := by
  decide

/-- C9 amended: `Destroy` first performs the blocking device-idle wait (when
a device exists, and only then) before destroying any child resource; no
destroy call is emitted for a null/unset scalar handle or an unallocated
array, so `Destroy` is safe on any partially constructed state whose
allocated handle arrays contain no uninitialized elements. (The per-element
destroy loops are guarded only by the array pointer, so states left by a
creation loop failing mid-array are destroyed unsafely — see the
counterexample.) -/
theorem C9_destroy_guarded (s : DestroyState) :
    (s.device = true →
      (VulkanRenderer_Destroy s).head? = some DOp.deviceWaitIdle) ∧
    (s.device = false → DOp.deviceWaitIdle ∉ VulkanRenderer_Destroy s) ∧
    (∀ (k : HandleKind) (h : Handle), s.hasHandle k = false →
      DOp.destroy k h ∉ VulkanRenderer_Destroy s) ∧
    (ArraysInitialized s = true → ∀ (k : HandleKind) (h : Handle),
      DOp.destroy k h ∈ VulkanRenderer_Destroy s →
      h.initialized = true) := by
  refine ⟨fun hdev => ?_, fun hdev => ?_, fun k h hk => ?_,
    fun hinit k h hmem => ?_⟩
  · simp [VulkanRenderer_Destroy, hdev]
  · simp [VulkanRenderer_Destroy, hdev, syncDestroySlot, mem_if_nil,
      mem_optOps, List.mem_map]
  · intro hmem
    simp only [VulkanRenderer_Destroy, syncDestroySlot, List.mem_append,
      mem_if_nil, mem_optOps, List.mem_map, List.mem_cons,
      List.not_mem_nil, or_false] at hmem
    casesm* _ ∨ _, Exists _, _ ∧ _
    all_goals (try simp only [DOp.destroy.injEq] at *)
    all_goals (try casesm* _ ∧ _)
    all_goals (try subst_vars)
    all_goals simp_all [DestroyState.hasHandle]
  · simp only [ArraysInitialized, Bool.and_eq_true] at hinit
    obtain ⟨⟨⟨⟨hia, hrf⟩, hf⟩, hfb⟩, hiv⟩ := hinit
    simp only [VulkanRenderer_Destroy, syncDestroySlot, List.mem_append,
      mem_if_nil, mem_optOps, List.mem_map, List.mem_cons,
      List.not_mem_nil, or_false] at hmem
    casesm* _ ∨ _, Exists _, _ ∧ _
    all_goals
      simp_all [pairOk, listOk, Handle.initialized, List.all_eq_true]

/-- Witness for C9 amended at the state after a fully successful `Init`
(every array element written): the idle wait comes first, no destroy is
emitted for the still-unset descriptor pool, and every destroy in the trace
carries a written handle. -/
theorem C9_destroy_guarded_witness :
    (VulkanRenderer_Destroy completeInitState).head? =
      some DOp.deviceWaitIdle ∧
    (∀ h : Handle, DOp.destroy HandleKind.descriptorPool h ∉
      VulkanRenderer_Destroy completeInitState) ∧
    (∀ (k : HandleKind) (h : Handle),
      DOp.destroy k h ∈ VulkanRenderer_Destroy completeInitState →
      h.initialized = true) :=
  ⟨(C9_destroy_guarded completeInitState).1 rfl,
   fun h =>
     (C9_destroy_guarded completeInitState).2.2.1 HandleKind.descriptorPool
       h rfl,
   fun k h hm =>
     (C9_destroy_guarded completeInitState).2.2.2 (by decide) k h hm⟩

end Zelda3Vulkan
